import Mathlib

/-
Verification of the data-shaping pipeline in `etl.py` (a Spark batch ETL
script).  The script is a sequence of declarative dataframe
transformations; we embed each transformation as a pure function over
lists of records.  Nullable JSON fields are `Option` values; SQL
three-valued equality on join keys is embedded so that `null` never
compares equal to anything.  Timestamps are integers of milliseconds
since the Unix epoch; `datetime.fromtimestamp` is embedded as a calendar
conversion parameterised by the engine's local-time offset `tz` (in
seconds).  Numeric payload columns that no claim computes with
(`duration`, latitude, longitude) are embedded as integers.
-/

/-! ### Input records (schema inferred from the JSON data, all fields nullable) -/

/-- One song metadata record (`song_data/.../*.json`). -/
structure SongRecord where
  song_id : Option String
  title : Option String
  artist_id : Option String
  year : Option Int
  duration : Option Int
  artist_name : Option String
  artist_location : Option String
  artist_latitude : Option Int
  artist_longitude : Option Int
deriving DecidableEq, Repr

/-- One activity-log record (`log_data/*.json`).  `ts` is epoch
milliseconds; rows reaching the timestamp UDF always carry one. -/
structure LogRecord where
  userId : Option String
  firstName : Option String
  lastName : Option String
  gender : Option String
  level : Option String
  ts : Int
  page : Option String
  song : Option String
  artist : Option String
  sessionId : Option Int
  location : Option String
  userAgent : Option String
deriving DecidableEq, Repr

/-! ### Output rows -/

/-- Row of the songs table: `df.select('song_id','title','artist_id','year','duration')`. -/
structure SongRow where
  song_id : Option String
  title : Option String
  artist_id : Option String
  year : Option Int
  duration : Option Int
deriving DecidableEq, Repr

/-- Row of the artists table: `artist_name`→`name`, `artist_location`→`location`,
`artist_latitude`→`latitude`, `artist_longitude`→`longitude`. -/
structure ArtistRow where
  artist_id : Option String
  name : Option String
  location : Option String
  latitude : Option Int
  longitude : Option Int
deriving DecidableEq, Repr

/-- Row of the users table after dropping `ts`/`max_ts_user` and renaming. -/
structure UserRow where
  user_id : Option String
  first_name : Option String
  last_name : Option String
  gender : Option String
  level : Option String
deriving DecidableEq, Repr

/-- Row of the time table: `start_time` (epoch ms) plus derived calendar fields. -/
structure TimeRow where
  start_time : Int
  hour : Int
  day : Int
  week : Int
  month : Int
  year : Int
  weekday : Int
deriving DecidableEq, Repr

/-- Row of `songs_details`, the full outer join of songs and artists on
`artist_id` projected to `song_id, title, artist_id, name, year`. -/
structure CatalogEntry where
  song_id : Option String
  title : Option String
  artist_id : Option String
  name : Option String
  year : Option Int
deriving DecidableEq, Repr

/-- Row of the songplays fact table. The final select keeps `sessionId`
under its source name; only `userAgent` is aliased to `user_agent`. -/
structure SongplayRow where
  start_time : Int
  user_id : Option Int
  level : Option String
  song_id : Option String
  artist_id : Option String
  sessionId : Option Int
  location : Option String
  year : Int
  month : Int
  user_agent : Option String
  songplay_id : Int
deriving DecidableEq, Repr

/-- Column names of the songplays output, in select order
(lines 114-124 of `etl.py`): `sessionId` is selected unrenamed,
`userAgent` is aliased to `user_agent`, and `songplay_id` is appended. -/
def songplayColumns : List String :=
  ["start_time", "user_id", "level", "song_id", "artist_id", "sessionId",
   "location", "year", "month", "user_agent", "songplay_id"]

/-! ### Calendar conversion

`F.udf(lambda x: datetime.fromtimestamp(x / 1000.0), TimestampType())`:
milliseconds are divided by 1000 and converted to a local calendar time;
`tz` is the engine's UTC offset in seconds.  The calendar algorithm is
the standard proleptic-Gregorian civil-from-days conversion. -/

/-- Whole seconds of the local timestamp for epoch-millisecond `ms`. -/
def localSecs (tz ms : Int) : Int := ms.fdiv 1000 + tz

/-- Days since 1970-01-01 of the local timestamp. -/
def epochDays (tz ms : Int) : Int := (localSecs tz ms).fdiv 86400

/-- Seconds elapsed within the local day. -/
def secondOfDay (tz ms : Int) : Int := (localSecs tz ms).fmod 86400

/-- (year, month, day) of a count of days since 1970-01-01,
proleptic Gregorian. -/
def civilFromDays (z0 : Int) : Int × Int × Int :=
  let z := z0 + 719468
  let era := z.fdiv 146097
  let doe := z - era * 146097
  let yoe := (doe - doe / 1460 + doe / 36524 - doe / 146096) / 365
  let y := yoe + era * 400
  let doy := doe - (365 * yoe + yoe / 4 - yoe / 100)
  let mp := (5 * doy + 2) / 153
  let d := doy - (153 * mp + 2) / 5 + 1
  let m := mp + (if mp < 10 then 3 else -9)
  (if m ≤ 2 then y + 1 else y, m, d)

/-- Days since 1970-01-01 of a (year, month, day) civil date. -/
def daysFromCivil (y0 m d : Int) : Int :=
  let y := if m ≤ 2 then y0 - 1 else y0
  let era := y.fdiv 400
  let yoe := y - era * 400
  let doy := (153 * (m + (if 2 < m then -3 else 9)) + 2) / 5 + d - 1
  let doe := yoe * 365 + yoe / 4 - yoe / 100 + doy
  era * 146097 + doe - 719468

/-- ISO day of week, Monday = 1 .. Sunday = 7 (day 0 was a Thursday). -/
def isoDow (days : Int) : Int := (days + 3).fmod 7 + 1

/-- `F.hour` of the local timestamp. -/
def hourOf (tz ms : Int) : Int := secondOfDay tz ms / 3600

/-- `F.year` of the local timestamp. -/
def yearOf (tz ms : Int) : Int := (civilFromDays (epochDays tz ms)).1

/-- `F.month` of the local timestamp. -/
def monthOf (tz ms : Int) : Int := (civilFromDays (epochDays tz ms)).2.1

/-- `F.dayofmonth` of the local timestamp. -/
def dayOf (tz ms : Int) : Int := (civilFromDays (epochDays tz ms)).2.2

/-- `F.weekofyear`: ISO-8601 week number, computed from the Thursday of
the containing week. -/
def weekOf (tz ms : Int) : Int :=
  let days := epochDays tz ms
  let thu := days + 4 - isoDow days
  (thu - daysFromCivil (civilFromDays thu).1 1 1) / 7 + 1

/-- `F.dayofweek`: Sunday = 1 .. Saturday = 7. -/
def weekdayOf (tz ms : Int) : Int := (epochDays tz ms + 4).fmod 7 + 1

/-! ### String-to-integer cast

`F.col('userId').cast(IntegerType())` with Spark's default (non-ANSI)
semantics, per `UTF8String.toInt` (copied from Hive's
`LazyInt.parseInt`): an optional sign, integral digits, and an optional
decimal separator whose fractional digits are validated but discarded —
a string with a fractional part is truncated to its integral part, not
nulled.  Any other character, an empty or sign-only string, or a value
outside the signed 32-bit range yields null instead of an error; the
string is not trimmed. -/

/-- Accumulate the integral part of a numeral; a decimal separator
stops the accumulation after validating that only digits follow it
(truncation); any other non-digit yields `none`. -/
def castDigits : List Char → Nat → Option Nat
  | [], acc => some acc
  | c :: rest, acc =>
    if c = '.' then (if rest.all Char.isDigit then some acc else none)
    else if c.isDigit then castDigits rest (acc * 10 + (c.toNat - 48)) else none

/-- Spark string→int cast (non-ANSI): truncates decimal fractions,
`none` on malformed input or 32-bit overflow. -/
def sparkCastInt (s : String) : Option Int :=
  match s.toList with
  | [] => none
  | c :: rest =>
    let neg : Bool := c = '-'
    let digits := if c = '-' ∨ c = '+' then rest else c :: rest
    if digits.isEmpty then none
    else
      match castDigits digits 0 with
      | none => none
      | some n =>
        let v : Int := if neg then -(n : Int) else (n : Int)
        if -2147483648 ≤ v ∧ v ≤ 2147483647 then some v else none

/-! ### Song-Catalog Stage (`process_song_data`) -/

/-- `songs_table = df.select('song_id', 'title', 'artist_id', 'year', 'duration')`. -/
def songsTable (songData : List SongRecord) : List SongRow :=
  songData.map fun s =>
    { song_id := s.song_id, title := s.title, artist_id := s.artist_id,
      year := s.year, duration := s.duration }

/-- `artists_table = df.select('artist_id', artist_name as name, ...)`. -/
def artistsTable (songData : List SongRecord) : List ArtistRow :=
  songData.map fun s =>
    { artist_id := s.artist_id, name := s.artist_name,
      location := s.artist_location, latitude := s.artist_latitude,
      longitude := s.artist_longitude }

/-! ### Event-Log Stage (`process_log_data`) -/

/-- `df = df.filter(F.col('page') == 'NextSong')`; SQL equality is false
on a null `page`. -/
def nextSongRows (logs : List LogRecord) : List LogRecord :=
  logs.filter fun r => r.page == some "NextSong"

/-- SQL equality on the join keys: null matches nothing. -/
def keyEq : Option String → Option String → Bool
  | some a, some b => a == b
  | _, _ => false

/-- `F.max(F.col('ts')).over(Window.partitionBy('userID'))`: the maximum
`ts` among the rows of `f` sharing the user id `u` (window partitioning
groups null ids together). -/
def groupMaxTs (f : List LogRecord) (u : Option String) : Option Int :=
  ((f.filter fun r => r.userId == u).map (·.ts)).max?

/-- Projection of a kept log row to a users-table row (drop `ts`,
rename `userId`→`user_id`, `firstName`→`first_name`, `lastName`→`last_name`). -/
def toUserRow (r : LogRecord) : UserRow :=
  { user_id := r.userId, first_name := r.firstName, last_name := r.lastName,
    gender := r.gender, level := r.level }

/-- The users table: filtered rows whose `ts` equals the per-user
windowed maximum, projected and renamed. -/
def usersTable (logs : List LogRecord) : List UserRow :=
  let f := nextSongRows logs
  (f.filter fun r => groupMaxTs f r.userId == some r.ts).map toUserRow

/-- The time-table row derived from one log row's `ts`. -/
def mkTimeRow (tz ms : Int) : TimeRow :=
  { start_time := ms, hour := hourOf tz ms, day := dayOf tz ms,
    week := weekOf tz ms, month := monthOf tz ms, year := yearOf tz ms,
    weekday := weekdayOf tz ms }

/-- The time table: calendar columns of every filtered row, then
`.distinct()` (de-duplication by full row). -/
def timeTable (tz : Int) (logs : List LogRecord) : List TimeRow :=
  ((nextSongRows logs).map fun r => mkTimeRow tz r.ts).dedup

/-- `songs_details`: full outer join of the songs and artists tables on
`artist_id` (null keys match nothing; the output key column coalesces
the two sides), projected to `song_id, title, artist_id, name, year`.
Left-only rows carry the song columns with a null `name`; right-only
rows carry the artist's own `name` with null song columns. -/
def songsDetails (songs : List SongRow) (artists : List ArtistRow) : List CatalogEntry :=
  (songs.map fun s =>
    let ms := artists.filter fun a => keyEq s.artist_id a.artist_id
    if ms.isEmpty then
      [{ song_id := s.song_id, title := s.title, artist_id := s.artist_id,
         name := none, year := s.year }]
    else
      ms.map fun a =>
        { song_id := s.song_id, title := s.title, artist_id := s.artist_id,
          name := a.name, year := s.year }).flatten
  ++ ((artists.filter fun a => songs.all fun s => !(keyEq s.artist_id a.artist_id)).map
      fun a => { song_id := none, title := none, artist_id := a.artist_id,
                 name := a.name, year := none })

/-- The left-join condition
`(df.song == songs_details.title) & (df.artist == songs_details.name)`;
SQL equality, so a null on either side matches nothing. -/
def logMatches (r : LogRecord) (e : CatalogEntry) : Bool :=
  keyEq r.song e.title && keyEq r.artist e.name

/-- The fact row built from log row `r` and (when present) the matched
catalog entry's `song_id`/`artist_id`.  `songplay_id` is filled in later. -/
def factRow (tz : Int) (r : LogRecord) (sid aid : Option String) : SongplayRow :=
  { start_time := r.ts,
    user_id := r.userId.bind sparkCastInt,
    level := r.level,
    song_id := sid,
    artist_id := aid,
    sessionId := r.sessionId,
    location := r.location,
    year := yearOf tz r.ts,
    month := monthOf tz r.ts,
    user_agent := r.userAgent,
    songplay_id := 0 }

/-- Left-join expansion of one filtered log row against the catalog:
one row per matching entry, or a single row with null ids when nothing
matches. -/
def factRowsOf (tz : Int) (catalog : List CatalogEntry) (r : LogRecord) : List SongplayRow :=
  let ms := catalog.filter (logMatches r)
  if ms.isEmpty then [factRow tz r none none]
  else ms.map fun e => factRow tz r e.song_id e.artist_id

/-- Overwrite a fact row's `songplay_id`. -/
def setId (i : Int) (row : SongplayRow) : SongplayRow := { row with songplay_id := i }

/-- `F.monotonically_increasing_id()`: each output row receives the id
the run-dependent assignment `idf` gives its position. -/
def withIds (idf : Nat → Int) : Nat → List SongplayRow → List SongplayRow
  | _, [] => []
  | n, row :: rest => setId (idf n) row :: withIds idf (n + 1) rest

/-- The songplays fact table: filtered log rows left-joined to the
catalog, projected, with run-dependent surrogate ids. -/
def songplaysTable (tz : Int) (idf : Nat → Int) (catalog : List CatalogEntry)
    (logs : List LogRecord) : List SongplayRow :=
  withIds idf 0 ((nextSongRows logs).map (factRowsOf tz catalog)).flatten

/-- The five persisted outputs of one run. -/
structure PipelineOutput where
  songs : List SongRow
  artists : List ArtistRow
  users : List UserRow
  time : List TimeRow
  songplays : List SongplayRow
deriving DecidableEq, Repr

/-- One full run: `process_song_data` then `process_log_data`, the
catalog re-read being the just-written songs and artists tables.
`idf` is the run's surrogate-id assignment. -/
def runPipeline (tz : Int) (idf : Nat → Int) (songData : List SongRecord)
    (logData : List LogRecord) : PipelineOutput :=
  let songs := songsTable songData
  let artists := artistsTable songData
  { songs := songs,
    artists := artists,
    users := usersTable logData,
    time := timeTable tz logData,
    songplays := songplaysTable tz idf (songsDetails songs artists) logData }

/-! ### Concrete fixtures -/

/-- A NextSong log record used as a base for concrete instances. -/
def baseLog : LogRecord :=
  { userId := some "10", firstName := some "Ann", lastName := some "Lee",
    gender := some "F", level := some "free", ts := 0, page := some "NextSong",
    song := none, artist := none, sessionId := some 1,
    location := some "Boston-MA", userAgent := some "Mozilla/5.0" }

/-- A song record used as a base for concrete instances. -/
def baseSong : SongRecord :=
  { song_id := some "S1", title := some "T", artist_id := some "A1",
    year := some 2009, duration := some 200, artist_name := some "N",
    artist_location := none, artist_latitude := none, artist_longitude := none }

/-- Identity surrogate-id assignment used when a fixture needs one. -/
def idNat (n : Nat) : Int := Int.ofNat n

/-- Two log rows of user "7" sharing the identical maximum `ts`. -/
def tieLogs : List LogRecord :=
  [{ baseLog with userId := some "7", ts := 5, level := some "free" },
   { baseLog with userId := some "7", ts := 5, level := some "paid" }]

/-- Two log rows of user "7" with distinct timestamps. -/
def twoTsLogs : List LogRecord :=
  [{ baseLog with userId := some "7", ts := 1, level := some "free" },
   { baseLog with userId := some "7", ts := 2, level := some "paid" }]

/-- Two song records sharing `artist_id` "A1". -/
def dupArtistSongs : List SongRecord :=
  [{ baseSong with song_id := some "S1", title := some "T1" },
   { baseSong with song_id := some "S2", title := some "T2" }]

/-- Two log rows whose timestamps differ by one millisecond, so the two
start_time values fall in the same calendar second. -/
def closeTsLogs : List LogRecord :=
  [{ baseLog with ts := 0 }, { baseLog with ts := 1 }]

/-- Two song records with distinct ids but the same title and artist
name, so one log row matches two catalog entries. -/
def dupTitleSongs : List SongRecord :=
  [{ baseSong with song_id := some "S1", artist_id := some "A1" },
   { baseSong with song_id := some "S2", artist_id := some "A2" }]

/-- A log row playing song "T" by "N". -/
def playTNrow : LogRecord := { baseLog with song := some "T", artist := some "N" }

/-- One log row playing song "T" by "N". -/
def playTN : List LogRecord := [playTNrow]

/-- A song record whose `song_id` is null but whose title and artist
name are present. -/
def nullIdSongs : List SongRecord :=
  [{ baseSong with song_id := none }]

/-- The log record of the spec's worked example. -/
def exampleLog : LogRecord :=
  { userId := some "10", firstName := none, lastName := none,
    gender := none, level := some "paid", ts := 1542241826796,
    page := some "NextSong", song := some "Intro", artist := some "The xx",
    sessionId := some 5, location := some "Boston-MA",
    userAgent := some "Mozilla/5.0" }

/-- The catalog entry of the spec's worked example. -/
def exampleEntry : CatalogEntry :=
  { song_id := some "SOXXX", title := some "Intro", artist_id := some "ARYYY",
    name := some "The xx", year := some 2009 }

/-- A log row whose `userId` is not a decimal integer. -/
def badUserLog : LogRecord := { baseLog with userId := some "abc" }

/-- A log row whose `userId` string "10.5" carries a decimal fraction. -/
def fracUserLog : LogRecord := { baseLog with userId := some "10.5" }

/-- A catalog entry with null title and name, as the full join produces
for an unmatched artist row. -/
def nullEntry : CatalogEntry :=
  { song_id := none, title := none, artist_id := some "A1", name := none,
    year := none }

/-- The first row of the artists table built from `dupArtistSongs`. -/
def dupArtistRow : ArtistRow :=
  { artist_id := some "A1", name := some "N", location := none,
    latitude := none, longitude := none }

/-- The single songplays row produced from `nullIdSongs` and `playTN`. -/
def joinWitnessRow : SongplayRow :=
  { start_time := 0, user_id := some 10, level := some "free", song_id := none,
    artist_id := some "A1", sessionId := some 1, location := some "Boston-MA",
    year := 1970, month := 1, user_agent := some "Mozilla/5.0", songplay_id := 0 }

/-- The fact row of the spec's worked example; its calendar fields are
whatever the timestamp derivation yields for the engine offset `tz`. -/
def exampleFactRow (tz : Int) (idf : Nat → Int) : SongplayRow :=
  { start_time := 1542241826796, user_id := some 10, level := some "paid",
    song_id := some "SOXXX", artist_id := some "ARYYY", sessionId := some 5,
    location := some "Boston-MA", year := yearOf tz 1542241826796,
    month := monthOf tz 1542241826796, user_agent := some "Mozilla/5.0",
    songplay_id := idf 0 }

/-! ### Helper lemmas -/

theorem le_foldlMax (l : List Int) (a : Int) : a ≤ l.foldl max a := by
  induction l generalizing a with
  | nil => simp
  | cons x xs ih => exact le_trans (le_max_left a x) (ih (max a x))

theorem le_foldlMax_of_mem {l : List Int} {b : Int} (h : b ∈ l) (a : Int) :
    b ≤ l.foldl max a := by
  induction l generalizing a with
  | nil => cases h
  | cons x xs ih =>
    rcases List.mem_cons.1 h with rfl | h2
    · exact le_trans (le_max_right a b) (le_foldlMax xs (max a b))
    · exact ih h2 (max a x)

theorem le_of_max?_eq_some {l : List Int} {m b : Int} (hm : l.max? = some m)
    (hb : b ∈ l) : b ≤ m := by
  cases l with
  | nil => cases hb
  | cons x xs =>
    have hx : m = xs.foldl max x := by
      simpa [List.max?] using hm.symm
    subst hx
    rcases List.mem_cons.1 hb with rfl | h2
    · exact le_foldlMax xs b
    · exact le_foldlMax_of_mem h2 x

theorem keyEq_eq_true {a b : Option String} (h : keyEq a b = true) :
    a ≠ none ∧ a = b := by
  cases a with
  | none => simp [keyEq] at h
  | some x =>
    cases b with
    | none => simp [keyEq] at h
    | some y =>
      simp only [keyEq, beq_iff_eq] at h
      subst h
      exact ⟨Option.some_ne_none x, rfl⟩

theorem keyEq_none_left (b : Option String) : keyEq none b = false := by
  cases b <;> rfl

theorem keyEq_none_right (a : Option String) : keyEq a none = false := by
  cases a <;> rfl

theorem withIds_map_erase (idf : Nat → Int) :
    ∀ (n : Nat) (l : List SongplayRow),
      (withIds idf n l).map (setId 0) = l.map (setId 0)
  | _, [] => rfl
  | n, row :: rest => by
    simp only [withIds, List.map_cons, withIds_map_erase idf (n + 1) rest]
    rfl

theorem length_withIds (idf : Nat → Int) :
    ∀ (n : Nat) (l : List SongplayRow), (withIds idf n l).length = l.length
  | _, [] => rfl
  | n, _ :: rest => by
    simp [withIds, length_withIds idf (n + 1) rest]

theorem mem_withIds {idf : Nat → Int} :
    ∀ {n : Nat} {l : List SongplayRow} {row : SongplayRow},
      row ∈ withIds idf n l → ∃ x, x ∈ l ∧ ∃ k, row = setId (idf k) x := by
  intro n l
  induction l generalizing n with
  | nil => intro row h; cases h
  | cons x xs ih =>
    intro row h
    rcases List.mem_cons.1 h with rfl | h2
    · exact ⟨x, List.mem_cons_self x xs, n, rfl⟩
    · rcases ih h2 with ⟨y, hy, k, hk⟩
      exact ⟨y, List.mem_cons_of_mem x hy, k, hk⟩

theorem userId_withIds_of_mem {idf : Nat → Int} :
    ∀ (n : Nat) {l : List SongplayRow} {pre : SongplayRow}, pre ∈ l →
      ∃ row, row ∈ withIds idf n l ∧ row.user_id = pre.user_id := by
  intro n l
  induction l generalizing n with
  | nil => intro pre h; cases h
  | cons x xs ih =>
    intro pre h
    rcases List.mem_cons.1 h with rfl | h2
    · exact ⟨setId (idf n) pre, List.mem_cons_self _ _, rfl⟩
    · rcases ih (n + 1) h2 with ⟨row, hrow, hid⟩
      exact ⟨row, List.mem_cons_of_mem _ hrow, hid⟩

theorem length_factRowsOf (tz : Int) (catalog : List CatalogEntry) (r : LogRecord) :
    (factRowsOf tz catalog r).length = max 1 (catalog.filter (logMatches r)).length := by
  unfold factRowsOf
  cases h : catalog.filter (logMatches r) with
  | nil => simp
  | cons e es => simp [Nat.max_eq_right (Nat.succ_le_succ (Nat.zero_le _))]

theorem factRowsOf_ne_nil (tz : Int) (catalog : List CatalogEntry) (r : LogRecord) :
    factRowsOf tz catalog r ≠ [] := by
  unfold factRowsOf
  cases h : catalog.filter (logMatches r) with
  | nil => simp
  | cons e es => simp

theorem mem_factRowsOf {tz : Int} {catalog : List CatalogEntry} {r : LogRecord}
    {row : SongplayRow} (h : row ∈ factRowsOf tz catalog r) :
    (catalog.filter (logMatches r) = [] ∧ row = factRow tz r none none)
    ∨ ∃ e, e ∈ catalog ∧ logMatches r e = true
        ∧ row = factRow tz r e.song_id e.artist_id := by
  unfold factRowsOf at h
  cases hf : catalog.filter (logMatches r) with
  | nil =>
    rw [hf] at h
    simp at h
    exact Or.inl ⟨rfl, h⟩
  | cons e es =>
    rw [hf] at h
    simp only [List.isEmpty_cons, Bool.false_eq_true, if_false] at h
    rcases List.mem_map.1 h with ⟨e2, he2, hrow⟩
    have he2c : e2 ∈ catalog.filter (logMatches r) := hf ▸ he2
    rcases List.mem_filter.1 he2c with ⟨hmem, hmatch⟩
    exact Or.inr ⟨e2, hmem, hmatch, hrow.symm⟩

theorem songsDetails_artist_id_some {songs : List SongRow} {artists : List ArtistRow}
    {e : CatalogEntry} (he : e ∈ songsDetails songs artists) (ht : e.title ≠ none)
    (hn : e.name ≠ none) : e.artist_id ≠ none := by
  unfold songsDetails at he
  rcases List.mem_append.1 he with h1 | h2
  · rcases List.mem_flatten.1 h1 with ⟨sub, hsub, hesub⟩
    rcases List.mem_map.1 hsub with ⟨s, _, hs⟩
    subst hs
    by_cases hemp : (artists.filter fun a => keyEq s.artist_id a.artist_id).isEmpty
    · rw [if_pos hemp] at hesub
      simp at hesub
      rw [hesub] at hn
      simp at hn
    · rw [if_neg hemp] at hesub
      rcases List.mem_map.1 hesub with ⟨a, ha, hea⟩
      rcases List.mem_filter.1 ha with ⟨_, hkey⟩
      rcases keyEq_eq_true hkey with ⟨hsome, _⟩
      rw [← hea]
      exact hsome
  · rcases List.mem_map.1 h2 with ⟨a, _, hea⟩
    rw [← hea] at ht
    simp at ht

theorem sum_map_ones {α : Type} (l : List α) (f : α → Nat)
    (h : ∀ a, a ∈ l → f a = 1) : (l.map f).sum = l.length := by
  induction l with
  | nil => rfl
  | cons x xs ih =>
    simp only [List.map_cons, List.sum_cons, List.length_cons,
      h x (List.mem_cons_self x xs)]
    rw [ih fun a ha => h a (List.mem_cons_of_mem x ha)]
    omega

theorem usersTable_eq (logs : List LogRecord) :
    usersTable logs = ((nextSongRows logs).filter fun r =>
      groupMaxTs (nextSongRows logs) r.userId == some r.ts).map toUserRow := rfl

/-! ### Claims -/

/-- C1 (amended).  Every users-table row for a user id `u` carries the
`level`, `first_name` and `last_name` of a filtered log record of `u`
whose `ts` equals the per-user maximum `ts`; the number of users-table
rows for `u` equals the number of filtered log records of `u` attaining
that maximum — exactly one only when the maximum is attained by a
unique record, since ties keep every tying record. -/
theorem userTable_latest_rows (logs : List LogRecord) (u : Option String) :
    (((usersTable logs).filter fun r => r.user_id == u).length
      = ((nextSongRows logs).filter fun l =>
          l.userId == u && groupMaxTs (nextSongRows logs) l.userId == some l.ts).length)
    ∧ ∀ row, row ∈ usersTable logs → row.user_id = u →
        ∃ l, l ∈ nextSongRows logs ∧ l.userId = u
          ∧ groupMaxTs (nextSongRows logs) u = some l.ts
          ∧ (∀ l2, l2 ∈ nextSongRows logs → l2.userId = u → l2.ts ≤ l.ts)
          ∧ row.level = l.level ∧ row.first_name = l.firstName
          ∧ row.last_name = l.lastName := by
  constructor
  · rw [usersTable_eq, List.filter_map, List.length_map, List.filter_filter]
    rfl
  · intro row hrow hu
    rw [usersTable_eq] at hrow
    rcases List.mem_map.1 hrow with ⟨l, hl, hrl⟩
    rcases List.mem_filter.1 hl with ⟨hlf, hq⟩
    have hq2 : groupMaxTs (nextSongRows logs) l.userId = some l.ts := by
      simpa using hq
    have hlu : l.userId = u := by rw [← hrl] at hu; exact hu
    have hmax : groupMaxTs (nextSongRows logs) u = some l.ts := hlu ▸ hq2
    refine ⟨l, hlf, hlu, hmax, ?_, ?_, ?_, ?_⟩
    · intro l2 hl2 hl2u
      have hmem : l2.ts ∈ ((nextSongRows logs).filter fun r => r.userId == u).map (·.ts) :=
        List.mem_map_of_mem _ (List.mem_filter.2 ⟨hl2, by simp [hl2u]⟩)
      exact le_of_max?_eq_some hmax hmem
    · rw [← hrl]; rfl
    · rw [← hrl]; rfl
    · rw [← hrl]; rfl

/-- Witness for C1 at a two-record input with a unique maximum. -/
theorem userTable_latest_rows_witness :
    ∃ l, l ∈ nextSongRows twoTsLogs ∧ l.userId = some "7"
      ∧ groupMaxTs (nextSongRows twoTsLogs) (some "7") = some l.ts
      ∧ (∀ l2, l2 ∈ nextSongRows twoTsLogs → l2.userId = some "7" → l2.ts ≤ l.ts)
      ∧ (toUserRow { baseLog with userId := some "7", ts := 2, level := some "paid" }).level = l.level
      ∧ (toUserRow { baseLog with userId := some "7", ts := 2, level := some "paid" }).first_name = l.firstName
      ∧ (toUserRow { baseLog with userId := some "7", ts := 2, level := some "paid" }).last_name = l.lastName :=
  (userTable_latest_rows twoTsLogs (some "7")).2
    (toUserRow { baseLog with userId := some "7", ts := 2, level := some "paid" })
    (by decide) (by decide)

/-- Counterexample to C1 as stated: two log rows of user "7" share the
identical maximum `ts`, and the users table then contains two rows for
that user id, not exactly one. -/
theorem userTable_tie_cex :
    ((usersTable tieLogs).filter fun r => r.user_id == some "7").length = 2
    ∧ (nextSongRows tieLogs).map (fun r => (r.userId, r.ts))
        = [(some "7", 5), (some "7", 5)] := by decide

/-- C2 (amended).  The artists table carries the renamed column values
of the input song records, but at one row per input song record: for
each artist id the table holds as many rows as there are song records
with that id, so an artist appearing in several song records is
duplicated rather than reduced to a single row. -/
theorem artistTable_rows (sd : List SongRecord) (a : Option String) :
    (((artistsTable sd).filter fun r => r.artist_id == a).length
      = (sd.filter fun s => s.artist_id == a).length)
    ∧ ∀ r, r ∈ artistsTable sd →
        ∃ s, s ∈ sd ∧ r.artist_id = s.artist_id ∧ r.name = s.artist_name
          ∧ r.location = s.artist_location ∧ r.latitude = s.artist_latitude
          ∧ r.longitude = s.artist_longitude := by
  constructor
  · unfold artistsTable
    rw [List.filter_map, List.length_map]
    rfl
  · intro r hr
    rcases List.mem_map.1 hr with ⟨s, hs, hrs⟩
    exact ⟨s, hs, by rw [← hrs], by rw [← hrs], by rw [← hrs], by rw [← hrs],
      by rw [← hrs]⟩

/-- Witness for C2 at a concrete two-record input. -/
theorem artistTable_rows_witness :
    ∃ s, s ∈ dupArtistSongs
      ∧ dupArtistRow.artist_id = s.artist_id
      ∧ dupArtistRow.name = s.artist_name
      ∧ dupArtistRow.location = s.artist_location
      ∧ dupArtistRow.latitude = s.artist_latitude
      ∧ dupArtistRow.longitude = s.artist_longitude :=
  (artistTable_rows dupArtistSongs (some "A1")).2 dupArtistRow (by decide)

/-- Counterexample to C2 as stated: two song records share
`artist_id = "A1"` and the artists table then contains two rows for
that artist id, not exactly one. -/
theorem artistTable_dup_cex :
    ((artistsTable dupArtistSongs).filter fun r => r.artist_id == some "A1").length = 2
    ∧ dupArtistSongs.map (·.artist_id) = [some "A1", some "A1"] := by decide

/-- C3 (amended).  The time table holds exactly one row per distinct
full tuple `(start_time, hour, day, week, month, year, weekday)`
derivable from the filtered log rows: the rows are pairwise distinct,
and a tuple appears exactly when some filtered record's `ts` derives
it.  Because `start_time` is part of the de-duplicated tuple, two
distinct `start_time` values mapping to the same calendar fields
produce one row each, not one row in total. -/
theorem timeTable_rows (tz : Int) (logs : List LogRecord) :
    (timeTable tz logs).Nodup
    ∧ ∀ row, row ∈ timeTable tz logs
        ↔ ∃ l, l ∈ nextSongRows logs ∧ row = mkTimeRow tz l.ts := by
  refine ⟨List.nodup_dedup _, fun row => ?_⟩
  unfold timeTable
  rw [List.mem_dedup, List.mem_map]
  constructor
  · rintro ⟨l, hl, hrow⟩
    exact ⟨l, hl, hrow.symm⟩
  · rintro ⟨l, hl, hrow⟩
    exact ⟨l, hl, hrow.symm⟩

/-- Witness for C3 at a concrete input. -/
theorem timeTable_rows_witness :
    (timeTable 0 closeTsLogs).Nodup
    ∧ (mkTimeRow 0 0 ∈ timeTable 0 closeTsLogs
        ↔ ∃ l, l ∈ nextSongRows closeTsLogs ∧ mkTimeRow 0 0 = mkTimeRow 0 l.ts) :=
  ⟨(timeTable_rows 0 closeTsLogs).1, (timeTable_rows 0 closeTsLogs).2 (mkTimeRow 0 0)⟩

/-- Counterexample to C3 as stated: timestamps 0 ms and 1 ms are two
distinct `start_time` values in the same calendar second, so the time
table carries their shared `(hour, day, week, month, year, weekday)`
tuple twice, not exactly once. -/
theorem timeTable_dup_cex :
    ((timeTable 0 closeTsLogs).filter fun t =>
      t.hour == 0 && t.day == 1 && t.week == 1 && t.month == 1
        && t.year == 1970 && t.weekday == 5).length = 2 := by decide

/-- C4 (amended).  The songplays output has exactly the columns
`start_time, user_id, level, song_id, artist_id, sessionId, location,
year, month, user_agent, songplay_id`: `userAgent` is renamed to
`user_agent`, but `sessionId` is selected under its source name and is
not renamed to `session_id`. -/
theorem songplayColumns_set :
    songplayColumns
      = ["start_time", "user_id", "level", "song_id", "artist_id", "sessionId",
         "location", "year", "month", "user_agent", "songplay_id"]
    ∧ songplayColumns.contains "sessionId" = true
    ∧ songplayColumns.contains "session_id" = false
    ∧ songplayColumns.contains "user_agent" = true
    ∧ songplayColumns.contains "userAgent" = false := by decide

/-- Counterexample to C4 as stated: the claimed column `session_id`
does not occur among the songplays output columns. -/
theorem songplayColumns_cex :
    songplayColumns.contains "session_id" = false
    ∧ songplayColumns.contains "sessionId" = true := by decide

/-- C5 (amended).  The songplays row count equals the sum, over the
filtered log rows, of the number of matching catalog entries (counting
one for a row with no match); it equals the filtered row count exactly
when no log row matches more than one catalog entry, and exceeds it
when several `(title, name)` pairs match the same log row, since the
left join then duplicates that row. -/
theorem songplayCount (tz : Int) (idf : Nat → Int) (catalog : List CatalogEntry)
    (logs : List LogRecord) :
    ((songplaysTable tz idf catalog logs).length
      = ((nextSongRows logs).map fun r =>
          max 1 (catalog.filter (logMatches r)).length).sum)
    ∧ ((∀ r, r ∈ nextSongRows logs → (catalog.filter (logMatches r)).length ≤ 1) →
        (songplaysTable tz idf catalog logs).length = (nextSongRows logs).length) := by
  have hlen : (songplaysTable tz idf catalog logs).length
      = ((nextSongRows logs).map fun r =>
          max 1 (catalog.filter (logMatches r)).length).sum := by
    unfold songplaysTable
    simp only [length_withIds, List.length_flatten, List.map_map,
      Function.comp_def, length_factRowsOf]
  refine ⟨hlen, fun hle => ?_⟩
  rw [hlen]
  apply sum_map_ones
  intro r hr
  have := hle r hr
  omega

/-- Witness for C5 at a one-row input matching one catalog entry. -/
theorem songplayCount_witness :
    (∀ r, r ∈ nextSongRows [exampleLog] →
      (([exampleEntry] : List CatalogEntry).filter (logMatches r)).length ≤ 1)
    ∧ (songplaysTable 0 idNat [exampleEntry] [exampleLog]).length
        = (nextSongRows [exampleLog]).length :=
  ⟨by decide, (songplayCount 0 idNat [exampleEntry] [exampleLog]).2 (by decide)⟩

/-- Counterexample to C5 as stated: the catalog built from
`dupTitleSongs` holds two entries with title "T" and artist name "N",
so the single filtered log row yields two fact rows. -/
theorem songplayCount_cex :
    (runPipeline 0 idNat dupTitleSongs playTN).songplays.length = 2
    ∧ (nextSongRows playTN).length = 1 := by decide

/-- C6 (amended).  Every songplays row comes from a filtered log row
`r`: when no catalog entry's `(title, name)` pair string-equals
`(r.song, r.artist)` the row's `song_id` and `artist_id` are both null;
when entries match, the row carries one matching entry's `song_id` and
`artist_id` verbatim — the `artist_id` of a matched entry is always
non-null, but its `song_id` (hence the fact row's) is null whenever the
source song record's `song_id` is null, so a match does not by itself
force a non-null `song_id`. -/
theorem songplayJoin (tz : Int) (idf : Nat → Int) (songs : List SongRow)
    (artists : List ArtistRow) (logs : List LogRecord) :
    ∀ row, row ∈ songplaysTable tz idf (songsDetails songs artists) logs →
      ∃ r, r ∈ nextSongRows logs ∧ row.start_time = r.ts ∧ row.level = r.level
        ∧ ((row.song_id = none ∧ row.artist_id = none
            ∧ (songsDetails songs artists).filter (logMatches r) = [])
          ∨ ∃ e, e ∈ songsDetails songs artists ∧ logMatches r e = true
              ∧ row.song_id = e.song_id ∧ row.artist_id = e.artist_id
              ∧ e.title = r.song ∧ e.name = r.artist ∧ e.artist_id ≠ none) := by
  intro row hrow
  unfold songplaysTable at hrow
  rcases mem_withIds hrow with ⟨pre, hpre, k, hk⟩
  rcases List.mem_flatten.1 hpre with ⟨sub, hsub, hpresub⟩
  rcases List.mem_map.1 hsub with ⟨r, hr, hsubr⟩
  subst hsubr
  subst hk
  rcases mem_factRowsOf hpresub with ⟨hnil, hpre_eq⟩ | ⟨e, he, hm, hpre_eq⟩
  · subst hpre_eq
    exact ⟨r, hr, rfl, rfl, Or.inl ⟨rfl, rfl, hnil⟩⟩
  · subst hpre_eq
    have hm2 : keyEq r.song e.title = true ∧ keyEq r.artist e.name = true := by
      have := hm
      unfold logMatches at this
      exact Bool.and_eq_true_iff.1 this
    rcases keyEq_eq_true hm2.1 with ⟨hsong_ne, hsong_eq⟩
    rcases keyEq_eq_true hm2.2 with ⟨hart_ne, hart_eq⟩
    have htitle_ne : e.title ≠ none := by rw [← hsong_eq]; exact hsong_ne
    have hname_ne : e.name ≠ none := by rw [← hart_eq]; exact hart_ne
    exact ⟨r, hr, rfl, rfl, Or.inr ⟨e, he, hm, rfl, rfl, hsong_eq.symm,
      hart_eq.symm, songsDetails_artist_id_some he htitle_ne hname_ne⟩⟩

/-- Witness for C6 at a concrete joined input. -/
theorem songplayJoin_witness :
    ∃ r, r ∈ nextSongRows playTN ∧ joinWitnessRow.start_time = r.ts
      ∧ joinWitnessRow.level = r.level
      ∧ ((joinWitnessRow.song_id = none ∧ joinWitnessRow.artist_id = none
          ∧ (songsDetails (songsTable nullIdSongs) (artistsTable nullIdSongs)).filter
              (logMatches r) = [])
        ∨ ∃ e, e ∈ songsDetails (songsTable nullIdSongs) (artistsTable nullIdSongs)
            ∧ logMatches r e = true ∧ joinWitnessRow.song_id = e.song_id
            ∧ joinWitnessRow.artist_id = e.artist_id ∧ e.title = r.song
            ∧ e.name = r.artist ∧ e.artist_id ≠ none) :=
  songplayJoin 0 idNat (songsTable nullIdSongs) (artistsTable nullIdSongs) playTN
    joinWitnessRow (by decide)

/-- Counterexample to C6 as stated: the catalog entry built from
`nullIdSongs` matches the log row's song and artist exactly, yet the
fact row's `song_id` is null, because the source song record's
`song_id` is null. -/
theorem songplayJoin_cex :
    ((runPipeline 0 idNat nullIdSongs playTN).songplays.map fun r =>
      (r.song_id, r.artist_id)) = [(none, some "A1")]
    ∧ ((songsDetails (songsTable nullIdSongs) (artistsTable nullIdSongs)).filter
        (logMatches playTNrow)).length = 1 := by decide

/-- C7.  The spec's worked example: the single log record joined
against the single catalog entry yields one fact row with
`song_id = "SOXXX"`, `artist_id = "ARYYY"`, `user_id = 10`, and, for
every engine offset within UTC±14h, `year = 2018` and `month = 11`
derived from `ts` by division by 1000 and epoch conversion. -/
theorem exampleJoin (tz : Int) (idf : Nat → Int)
    (h1 : -50400 ≤ tz) (h2 : tz ≤ 50400) :
    songplaysTable tz idf [exampleEntry] [exampleLog] = [exampleFactRow tz idf]
    ∧ yearOf tz 1542241826796 = 2018 ∧ monthOf tz 1542241826796 = 11 := by
  have hdays : epochDays tz 1542241826796 = 17849
      ∨ epochDays tz 1542241826796 = 17850 := by
    unfold epochDays localSecs
    rw [(by decide : (1542241826796 : Int).fdiv 1000 = 1542241826)]
    rw [Int.fdiv_eq_ediv _ (by norm_num)]
    omega
  refine ⟨rfl, ?_, ?_⟩
  · unfold yearOf
    rcases hdays with h | h <;> rw [h] <;> decide
  · unfold monthOf
    rcases hdays with h | h <;> rw [h] <;> decide

/-- Witness for C7 at offset 0 (UTC). -/
theorem exampleJoin_witness :
    (-50400 ≤ (0 : Int) ∧ (0 : Int) ≤ 50400)
    ∧ (songplaysTable 0 idNat [exampleEntry] [exampleLog] = [exampleFactRow 0 idNat]
        ∧ yearOf 0 1542241826796 = 2018 ∧ monthOf 0 1542241826796 = 11) :=
  ⟨by decide, exampleJoin 0 idNat (by decide) (by decide)⟩

/-- C8.  Two runs on identical input, differing only in the
run-dependent surrogate-id assignment, produce identical songs,
artists, users and time tables, and songplays tables that agree on
every column once `songplay_id` is erased. -/
theorem pipelineDeterministic (tz : Int) (idf1 idf2 : Nat → Int)
    (sd : List SongRecord) (ld : List LogRecord) :
    (runPipeline tz idf1 sd ld).songs = (runPipeline tz idf2 sd ld).songs
    ∧ (runPipeline tz idf1 sd ld).artists = (runPipeline tz idf2 sd ld).artists
    ∧ (runPipeline tz idf1 sd ld).users = (runPipeline tz idf2 sd ld).users
    ∧ (runPipeline tz idf1 sd ld).time = (runPipeline tz idf2 sd ld).time
    ∧ (runPipeline tz idf1 sd ld).songplays.map (setId 0)
        = (runPipeline tz idf2 sd ld).songplays.map (setId 0) :=
  ⟨rfl, rfl, rfl, rfl,
    (withIds_map_erase idf1 0 _).trans (withIds_map_erase idf2 0 _).symm⟩

/-- C9 (amended).  The `userId` cast is total: the Event-Log Stage
never fails on a `userId` string, and every fact row produced from a
filtered log row carries the Spark cast of that string as its
`user_id` — null when the string is not an optionally-signed decimal
numeral (or overflows 32 bits), but the truncated integral part, not
null, when the string has a decimal fraction such as "10.5". -/
theorem useridCastNull (tz : Int) (idf : Nat → Int) (catalog : List CatalogEntry)
    (logs : List LogRecord) (r : LogRecord) (s : String)
    (hr : r ∈ nextSongRows logs) (hs : r.userId = some s) :
    (∀ row, row ∈ factRowsOf tz catalog r → row.user_id = sparkCastInt s)
    ∧ ∃ row, row ∈ songplaysTable tz idf catalog logs
        ∧ row.user_id = sparkCastInt s := by
  have hall : ∀ row, row ∈ factRowsOf tz catalog r → row.user_id = sparkCastInt s := by
    intro row hrowmem
    rcases mem_factRowsOf hrowmem with ⟨_, heq⟩ | ⟨e, _, _, heq⟩ <;> subst heq <;>
      simp [factRow, hs]
  refine ⟨hall, ?_⟩
  obtain ⟨pre, hpre⟩ : ∃ pre, pre ∈ factRowsOf tz catalog r := by
    cases hfac : factRowsOf tz catalog r with
    | nil => exact absurd hfac (factRowsOf_ne_nil tz catalog r)
    | cons a l => exact ⟨a, hfac ▸ List.mem_cons_self a l⟩
  have hpreflat : pre ∈ ((nextSongRows logs).map (factRowsOf tz catalog)).flatten :=
    List.mem_flatten.2 ⟨_, List.mem_map_of_mem _ hr, hpre⟩
  rcases @userId_withIds_of_mem idf 0 _ _ hpreflat with ⟨row, hrow, hid⟩
  exact ⟨row, hrow, hid.trans (hall pre hpre)⟩

/-- Witness for C9 at a log row with unparseable `userId = "abc"`
(there `sparkCastInt "abc" = none`, so the produced `user_id` is null). -/
theorem useridCastNull_witness :
    (∀ row, row ∈ factRowsOf 0 ([] : List CatalogEntry) badUserLog →
      row.user_id = sparkCastInt "abc")
    ∧ ∃ row, row ∈ songplaysTable 0 idNat [] [badUserLog]
        ∧ row.user_id = sparkCastInt "abc" :=
  useridCastNull 0 idNat [] [badUserLog] badUserLog "abc" (by decide) (by decide)

/-- Counterexample to C9 as stated: the `userId` string "10.5" is not a
valid decimal integer, yet Spark's cast truncates it to 10 instead of
nulling it, so the produced fact row carries `user_id = 10`, not null. -/
theorem useridCastNull_cex :
    ((songplaysTable 0 idNat [] [fracUserLog]).map fun r => r.user_id) = [some 10]
    ∧ sparkCastInt "10.5" = some 10 ∧ sparkCastInt "abc" = none := by decide

/-- C10.  A filtered log row with a null `song` or a null `artist`
matches no catalog entry — SQL equality on the join keys never matches
a null, whatever entries (including null-titled or null-named ones)
the catalog holds — so every fact row it produces has null `song_id`
and null `artist_id`. -/
theorem nullSongJoin (tz : Int) (catalog : List CatalogEntry) (r : LogRecord)
    (h : r.song = none ∨ r.artist = none) :
    ∀ row, row ∈ factRowsOf tz catalog r →
      row.song_id = none ∧ row.artist_id = none := by
  have hnil : catalog.filter (logMatches r) = [] := by
    rw [List.filter_eq_nil_iff]
    intro e he
    rcases h with h | h <;> simp [logMatches, h, keyEq_none_left]
  intro row hrow
  unfold factRowsOf at hrow
  rw [hnil] at hrow
  simp at hrow
  subst hrow
  exact ⟨rfl, rfl⟩

/-- Witness for C10 at a log row with null `song` and a catalog whose
entry has null title and name. -/
theorem nullSongJoin_witness :
    (factRow 0 baseLog none none).song_id = none
    ∧ (factRow 0 baseLog none none).artist_id = none :=
  nullSongJoin 0 [nullEntry] baseLog (Or.inl rfl) (factRow 0 baseLog none none)
    (by decide)

